import Mathlib

/-!
Verification of the railway-ocr-service extraction pipeline (src/index.js).

The repository is a single Express handler `POST /ocr` plus two helpers,
`extractTextWithTesseract` and `convertPdfToImages`.  The black-box
collaborators (filesystem read, pdf-parse, pdf2pic rendering, tesseract
recognition, fs-extra removal) are modelled as oracles supplied through an
environment record; the handler itself is translated statement by statement
into a pure Lean function `handle` that additionally records, for
verification purposes, the artifacts created, the removal attempts made,
the final filesystem contents, the candidate text reaching the final
acceptance check, and whether the page renderer was invoked.

JavaScript specifics modelled here:
 * `String.prototype.trim` is modelled by `jsTrim`, dropping the ASCII
   whitespace class from both ends (the inputs we reason about are ASCII);
 * `String.prototype.includes` is modelled by `jsIncludes`;
 * a falsy string (`!s`, or `s && ...` failing) is the empty string;
 * `req.body.moduleId || 'unknown'` is modelled on `Option String`, where
   `none` is an absent field and `some ""` an empty one;
 * exceptions are modelled with `Except String`.
-/

namespace RailwayOCR

/-- Whitespace class used to model JavaScript String.prototype.trim
(restricted to the ASCII whitespace characters). -/
def isWS (c : Char) : Bool :=
  c = ' ' || c = '\t' || c = '\n' || c = '\r' || c = '\x0b' || c = '\x0c'

/-- Drop whitespace from both ends of a character list. -/
def trimChars (l : List Char) : List Char :=
  ((l.dropWhile isWS).reverse.dropWhile isWS).reverse

/-- Model of JavaScript `s.trim()`. -/
def jsTrim (s : String) : String :=
  String.mk (trimChars s.data)

/-- Helper for the substring test: does `pat` begin the list `l`. -/
def beginsWith : List Char → List Char → Bool
  | [], _ => true
  | _ :: _, [] => false
  | a :: pat, b :: l => a = b && beginsWith pat l

/-- Helper for the substring test: does `pat` occur anywhere inside `l`. -/
def containsSub (pat : List Char) : List Char → Bool
  | [] => beginsWith pat []
  | c :: rest => beginsWith pat (c :: rest) || containsSub pat rest

/-- Model of JavaScript `s.includes(pat)`. -/
def jsIncludes (s pat : String) : Bool :=
  containsSub pat.data s.data

/-- The fixed accepted-character set passed to the recognition engine
(`tessedit_char_whitelist` in `extractTextWithTesseract`): ASCII letters,
digits and common punctuation. -/
def charWhitelist : String :=
  "ABCDEFGHIJKLMNOPQRSTUVWXYZabcdefghijklmnopqrstuvwxyz0123456789 .,;:!?-()[]\x7b\x7d/\x22\x27"

/-- Observable lifecycle events of one tesseract worker, in the order the
source performs them: `createWorker`, `loadLanguage`, `initialize`,
`setParameters`, `recognize`, `terminate`. -/
inductive EngineEvent where
  | create
  | loadLang (lang : String)
  | initLang (lang : String)
  | setParams (whitelist psm : String)
  | recognizePage
  | terminate
deriving DecidableEq

/-- Oracle describing how the black-box tesseract engine behaves during one
invocation of `extractTextWithTesseract`: each lifecycle step either
succeeds or throws, and a successful `recognize` yields the page text. -/
structure TessEnv where
  createOk : Except String Unit
  loadOk : Except String Unit
  initOk : Except String Unit
  setOk : Except String Unit
  recognized : Except String String

/-- Embedding of `extractTextWithTesseract` (src/index.js lines 42-61).
Returns the result (recognized text, or the re-raised error) together with
the trace of engine lifecycle events.  The source awaits `createWorker`
outside the try block, then inside it loads and initializes language
`'eng'`, sets the fixed parameter profile (character whitelist and page
segmentation mode `'1'`), recognizes, and terminates; on any error it
terminates the worker and re-throws. -/
def extractTextWithTesseract (env : TessEnv) : Except String String × List EngineEvent :=
  match env.createOk with
  | .error e => (.error e, [])
  | .ok _ =>
    match env.loadOk with
    | .error e => (.error e, [.create, .loadLang "eng", .terminate])
    | .ok _ =>
      match env.initOk with
      | .error e => (.error e, [.create, .loadLang "eng", .initLang "eng", .terminate])
      | .ok _ =>
        match env.setOk with
        | .error e =>
          (.error e,
           [.create, .loadLang "eng", .initLang "eng",
            .setParams charWhitelist "1", .terminate])
        | .ok _ =>
          match env.recognized with
          | .error e =>
            (.error e,
             [.create, .loadLang "eng", .initLang "eng",
              .setParams charWhitelist "1", .recognizePage, .terminate])
          | .ok t =>
            (.ok t,
             [.create, .loadLang "eng", .initLang "eng",
              .setParams charWhitelist "1", .recognizePage, .terminate])

/-- The uploaded file record multer attaches to the request (`req.file`). -/
structure UploadedFile where
  path : String
  originalname : String
deriving DecidableEq

/-- The request as seen by the handler: the optional uploaded file and the
optional `moduleId` body field. -/
structure Request where
  file : Option UploadedFile
  moduleId : Option String
deriving DecidableEq

/-- Environment of black-box collaborators for one request:
`readFile` on the upload, the `pdf-parse` text field (a thrown error, or
the extracted embedded text, `""` standing for any falsy value),
`pdf2pic` rendering (a thrown error, or the ordered page-image paths), and
per page index the tesseract oracle for that page's
`extractTextWithTesseract` call. -/
structure Env where
  readFile : Except String Unit
  parsedText : Except String String
  render : Except String (List String)
  tess : Nat → TessEnv

/-- Outcome of the handler's call `extractTextWithTesseract(imagePaths[i])`
for page index `i`. -/
def recognizeAt (env : Env) (i : Nat) : Except String String :=
  (extractTextWithTesseract (env.tess i)).fst

/-- The JSON responses the handler can produce: the 400 missing-file error,
a 500 error with message and details, or the 200 success payload. -/
inductive Response where
  | clientError (error : String)
  | serverError (error details : String)
  | success (text filename moduleId : String) (textLength : Nat) (method : String)
deriving DecidableEq

/-- Result of one request, instrumented for verification: the response,
the temporary artifacts created during processing, the filesystem contents
when the response is delivered, the paths whose removal was attempted, the
candidate text reaching the final acceptance check (when reached), and
whether the page renderer was invoked. -/
structure HResult where
  response : Response
  created : List String
  fsFinal : List String
  removeAttempts : List String
  candidate : Option String
  rendererInvoked : Bool
deriving DecidableEq

/-- One best-effort `fs.remove(p).catch(() => \x7b\x7d)`: the oracle `ok`
says whether the removal succeeds; a successful removal deletes the path
from the filesystem, a failed one is swallowed and leaves it. -/
def removePath (ok : String → Bool) (fs : List String) (p : String) : List String :=
  if ok p then fs.filter (fun q => q ≠ p) else fs

/-- The image-cleanup loop: best-effort removal of each path in turn. -/
def removeAll (ok : String → Bool) (fs : List String) (ps : List String) : List String :=
  ps.foldl (removePath ok) fs

/-- Embedding of the basic (structural) extraction attempt, src/index.js
lines 92-101: read the upload, run pdf-parse, and accept the embedded text
when it is truthy and its trimmed length exceeds 100, in which case
`extractedText` becomes the trimmed text; otherwise throw
`Basic extraction insufficient, trying OCR`.  A thrown read or parse error
also lands in the surrounding catch, i.e. is an `.error` here. -/
def basicExtract (env : Env) : Except String String :=
  match env.readFile with
  | .error e => .error e
  | .ok _ =>
    match env.parsedText with
    | .error e => .error e
    | .ok t =>
      if t ≠ "" ∧ 100 < (jsTrim t).length then .ok (jsTrim t)
      else .error "Basic extraction insufficient, trying OCR"

/-- The page-boundary entry pushed for an accepted page of 0-based index
`i`: the template literal \x60--- Page ${i + 1} ---\n${pageText.trim()}\x60. -/
def pageEntry (i : Nat) (t : String) : String :=
  "--- Page " ++ toString (i + 1) ++ " ---\n" ++ jsTrim t

/-- Declarative description of one iteration of the per-page OCR loop:
`some entry` when page `i` recognizes successfully and its trimmed text
exceeds 10 characters, `none` when it is rejected or its recognition
throws. -/
def pageStep (rec : Nat → Except String String) (i : Nat) : Option String :=
  match rec i with
  | .ok t => if 10 < (jsTrim t).length then some (pageEntry i t) else none
  | .error _ => none

/-- Embedding of the per-page OCR loop (src/index.js lines 110-121):
iterate over the page indices in order, pushing the page entry when the
trimmed page text exceeds 10 characters and swallowing per-page
recognition errors. -/
def ocrLoop (rec : Nat → Except String String) (n : Nat) : List String :=
  (List.range n).foldl
    (fun acc i =>
      match rec i with
      | .ok t => if 10 < (jsTrim t).length then acc ++ [pageEntry i t] else acc
      | .error _ => acc)
    []

/-- The `method` field of the success payload (src/index.js line 148):
`extractedText.includes('Basic extraction') ? 'basic' : 'ocr'`. -/
def methodField (extractedText : String) : String :=
  if jsIncludes extractedText "Basic extraction" then "basic" else "ocr"

/-- Embedding of src/index.js lines 131-149: the tail of the happy path
shared by both tiers.  Best-effort removal of the uploaded PDF, then the
final acceptance check `!extractedText || extractedText.trim().length < 50`
producing the 500 extraction-failure response, otherwise the success
payload with trimmed text, its length, and the content-sniffed method
field. -/
def finish (ok : String → Bool) (file : UploadedFile) (moduleId extractedText : String)
    (created fs attempts : List String) (rendered : Bool) : HResult :=
  let fs1 := removePath ok fs file.path
  let attempts1 := attempts ++ [file.path]
  if extractedText = "" ∨ (jsTrim extractedText).length < 50 then
    { response := .serverError "Text extraction failed"
        "Unable to extract meaningful text from PDF",
      created := created, fsFinal := fs1, removeAttempts := attempts1,
      candidate := some extractedText, rendererInvoked := rendered }
  else
    { response := .success (jsTrim extractedText) file.originalname moduleId
        (jsTrim extractedText).length (methodField extractedText),
      created := created, fsFinal := fs1, removeAttempts := attempts1,
      candidate := some extractedText, rendererInvoked := rendered }

/-- Embedding of the `POST /ocr` handler (src/index.js lines 79-164).
Missing file yields the 400 response.  Otherwise the upload is on disk;
`moduleId` defaults to `unknown` for an absent or empty field; the basic
extraction is attempted and, on its failure, the renderer is invoked:
a render error propagates to the outer catch (which removes the upload and
answers `PDF processing failed`), and otherwise the per-page OCR loop runs
over the rendered images, the aggregate is joined with blank lines, and
the images are cleaned up before the shared tail `finish`. -/
def handle (env : Env) (ok : String → Bool) (req : Request) : HResult :=
  match req.file with
  | none =>
    { response := .clientError "No PDF file uploaded",
      created := [], fsFinal := [], removeAttempts := [],
      candidate := none, rendererInvoked := false }
  | some file =>
    let moduleId :=
      match req.moduleId with
      | none => "unknown"
      | some m => if m = "" then "unknown" else m
    match basicExtract env with
    | .ok t =>
      finish ok file moduleId t [file.path] [file.path] [] false
    | .error _ =>
      match env.render with
      | .error e =>
        { response := .serverError "PDF processing failed" e,
          created := [file.path],
          fsFinal := removePath ok [file.path] file.path,
          removeAttempts := [file.path],
          candidate := none, rendererInvoked := true }
      | .ok imagePaths =>
        let extractedText :=
          String.intercalate "\n\n" (ocrLoop (recognizeAt env) imagePaths.length)
        let fs1 := removeAll ok ([file.path] ++ imagePaths) imagePaths
        finish ok file moduleId extractedText
          ([file.path] ++ imagePaths) fs1 imagePaths true

/-- Whether a response is the 200 success payload. -/
def isSuccess : Response → Bool
  | .success _ _ _ _ _ => true
  | _ => false

/-! ## Concrete environments used as witnesses and counterexamples -/

/-- A tesseract oracle whose every lifecycle step succeeds and whose
recognition yields `t`. -/
def tessOkOf (t : String) : TessEnv :=
  ⟨.ok (), .ok (), .ok (), .ok (), .ok t⟩

/-- A tesseract oracle whose recognition step throws `e`. -/
def tessFail (e : String) : TessEnv :=
  ⟨.ok (), .ok (), .ok (), .ok (), .error e⟩

/-- Thirty-five non-whitespace characters of recognized page text. -/
def textC1 : String := String.mk (List.replicate 35 'b')

/-- A scanned document with no embedded text layer and a single rendered
page whose recognition yields `textC1`. -/
def envC1 : Env :=
  { readFile := .ok (), parsedText := .ok "",
    render := .ok ["/tmp/pdf-images/page.1.png"],
    tess := fun _ => tessOkOf textC1 }

/-- A request carrying that upload and no moduleId field. -/
def reqC1 : Request :=
  { file := some ⟨"/tmp/uploads/u1", "scan.pdf"⟩, moduleId := none }

/-- The aggregate the OCR tier produces for `envC1`: page marker plus the
35 recognized characters, 50 characters in all. -/
def aggC1 : String := "--- Page 1 ---\n" ++ textC1

/-- An embedded text layer of 101 non-whitespace characters that does not
contain the substring `Basic extraction`. -/
def textC2 : String := String.mk (List.replicate 101 'a')

/-- A document whose structural extraction succeeds with `textC2`. -/
def envC2 : Env :=
  { readFile := .ok (), parsedText := .ok textC2, render := .ok [],
    tess := fun _ => tessFail "unused" }

/-- A request carrying that upload and moduleId `mod-1`. -/
def reqC2 : Request :=
  { file := some ⟨"/tmp/uploads/u2", "doc.pdf"⟩, moduleId := some "mod-1" }

/-- Per-page recognition outcomes for a three-page document whose middle
page (0-based index 1) throws, while the others recognize plenty of text. -/
def recW : Nat → Except String String := fun i =>
  if i = 1 then .error "boom" else .ok ("content of page number " ++ toString i)

/-- A scanned three-page document: page 1 recognizes long text, page 2
recognizes only a short string, page 3's recognition throws. -/
def envC5 : Env :=
  { readFile := .ok (), parsedText := .error "parse crash",
    render := .ok ["/tmp/pdf-images/page.1.png", "/tmp/pdf-images/page.2.png",
                   "/tmp/pdf-images/page.3.png"],
    tess := fun i =>
      if i = 0 then tessOkOf "  hello world page  "
      else if i = 1 then tessOkOf " tiny "
      else tessFail "ocr crash" }

/-- A request carrying that upload with an empty moduleId field. -/
def reqC5 : Request :=
  { file := some ⟨"/tmp/uploads/u5", "a.pdf"⟩, moduleId := some "" }

/-- A scanned two-page document where page 1's recognition throws and page
2 recognizes only punctuation noise. -/
def envC6 : Env :=
  { readFile := .ok (), parsedText := .ok "   ",
    render := .ok ["/tmp/pdf-images/x.png", "/tmp/pdf-images/y.png"],
    tess := fun i => if i = 0 then tessFail "bad page" else tessOkOf "  .,  " }

/-- A request carrying that upload. -/
def reqC6 : Request :=
  { file := some ⟨"/tmp/uploads/u6", "noise.pdf"⟩, moduleId := some "m6" }

/-- A tesseract oracle for a fully successful recognition. -/
def envT8 : TessEnv := tessOkOf "recognized page text"

/-! ## General lemmas about the loop, removal, and trimming helpers -/

theorem ocrLoop_go (rec : Nat → Except String String) :
    ∀ (l : List Nat) (acc : List String),
      l.foldl
        (fun acc i =>
          match rec i with
          | .ok t => if 10 < (jsTrim t).length then acc ++ [pageEntry i t] else acc
          | .error _ => acc)
        acc
      = acc ++ l.filterMap (pageStep rec) := by
  intro l
  induction l with
  | nil => intro acc; simp
  | cons a l ih =>
    intro acc
    simp only [List.foldl_cons, List.filterMap_cons]
    cases h : rec a with
    | ok t =>
      simp only [pageStep, h]
      by_cases h10 : 10 < (jsTrim t).length
      · simp only [if_pos h10, ih, List.append_assoc, List.singleton_append]
      · simp only [if_neg h10, ih]
    | error e =>
      simp only [pageStep, h, ih]

theorem ocrLoop_eq_filterMap (rec : Nat → Except String String) (n : Nat) :
    ocrLoop rec n = (List.range n).filterMap (pageStep rec) := by
  unfold ocrLoop
  rw [ocrLoop_go rec (List.range n) []]
  simp

theorem filterMap_drop_none {α β : Type} (f : α → Option β) (p : α → Bool)
    (l : List α) (h : ∀ a ∈ l, p a = false → f a = none) :
    l.filterMap f = (l.filter p).filterMap f := by
  induction l with
  | nil => rfl
  | cons a l ih =>
    have ih2 := ih (fun a ha => h a (List.mem_cons_of_mem _ ha))
    cases hp : p a with
    | true =>
      rw [List.filter_cons, if_pos hp, List.filterMap_cons, List.filterMap_cons, ih2]
    | false =>
      have hnone := h a (List.mem_cons_self a l) hp
      simp only [List.filter_cons, hp, List.filterMap_cons, hnone]
      simpa using ih2

theorem mem_of_mem_removePath (ok : String → Bool) (fs : List String) (p x : String)
    (h : x ∈ removePath ok fs p) : x ∈ fs := by
  unfold removePath at h
  split at h
  · exact (List.mem_filter.mp h).1
  · exact h

theorem mem_of_mem_removeAll (ok : String → Bool) :
    ∀ (ps fs : List String) (x : String), x ∈ removeAll ok fs ps → x ∈ fs := by
  intro ps
  induction ps with
  | nil => intro fs x h; exact h
  | cons p ps ih =>
    intro fs x h
    have h2 : x ∈ removeAll ok (removePath ok fs p) ps := h
    exact mem_of_mem_removePath ok fs p x (ih _ x h2)

theorem not_mem_removeAll_true :
    ∀ (ps fs : List String) (x : String), x ∈ ps → x ∉ removeAll (fun _ => true) fs ps := by
  intro ps
  induction ps with
  | nil => intro fs x h; cases h
  | cons p ps ih =>
    intro fs x h hmem
    have hmem2 : x ∈ removeAll (fun _ => true) (removePath (fun _ => true) fs p) ps := hmem
    rcases List.mem_cons.mp h with h1 | h1
    · subst h1
      have hx := mem_of_mem_removeAll (fun _ => true) ps _ x hmem2
      simp [removePath] at hx
    · exact ih _ x h1 hmem2

theorem removePath_true_cleanup (fs ps : List String) (p : String)
    (hfs : ∀ x ∈ fs, x = p ∨ x ∈ ps) :
    removePath (fun _ => true) (removeAll (fun _ => true) fs ps) p = [] := by
  have hrp : removePath (fun _ => true) (removeAll (fun _ => true) fs ps) p
      = (removeAll (fun _ => true) fs ps).filter (fun q => q ≠ p) := by
    simp [removePath]
  rw [hrp, List.filter_eq_nil_iff]
  intro x hx
  have h1 := mem_of_mem_removeAll (fun _ => true) ps fs x hx
  rcases hfs x h1 with h2 | h2
  · simp [h2]
  · exact absurd hx (not_mem_removeAll_true ps fs x h2)

/-! Properties of the `finish` tail shared by both tiers. -/

theorem finish_response (ok : String → Bool) (file : UploadedFile)
    (moduleId extractedText : String) (created fs attempts : List String) (rendered : Bool) :
    (finish ok file moduleId extractedText created fs attempts rendered).response =
      if extractedText = "" ∨ (jsTrim extractedText).length < 50 then
        Response.serverError "Text extraction failed"
          "Unable to extract meaningful text from PDF"
      else
        Response.success (jsTrim extractedText) file.originalname moduleId
          (jsTrim extractedText).length (methodField extractedText) := by
  unfold finish
  split <;> simp_all

theorem finish_candidate (ok : String → Bool) (file : UploadedFile)
    (moduleId extractedText : String) (created fs attempts : List String) (rendered : Bool) :
    (finish ok file moduleId extractedText created fs attempts rendered).candidate =
      some extractedText := by
  unfold finish
  split <;> rfl

theorem finish_created (ok : String → Bool) (file : UploadedFile)
    (moduleId extractedText : String) (created fs attempts : List String) (rendered : Bool) :
    (finish ok file moduleId extractedText created fs attempts rendered).created = created := by
  unfold finish
  split <;> rfl

theorem finish_attempts (ok : String → Bool) (file : UploadedFile)
    (moduleId extractedText : String) (created fs attempts : List String) (rendered : Bool) :
    (finish ok file moduleId extractedText created fs attempts rendered).removeAttempts =
      attempts ++ [file.path] := by
  unfold finish
  split <;> rfl

theorem finish_fsFinal (ok : String → Bool) (file : UploadedFile)
    (moduleId extractedText : String) (created fs attempts : List String) (rendered : Bool) :
    (finish ok file moduleId extractedText created fs attempts rendered).fsFinal =
      removePath ok fs file.path := by
  unfold finish
  split <;> rfl

theorem finish_rendered (ok : String → Bool) (file : UploadedFile)
    (moduleId extractedText : String) (created fs attempts : List String) (rendered : Bool) :
    (finish ok file moduleId extractedText created fs attempts rendered).rendererInvoked =
      rendered := by
  unfold finish
  split <;> rfl

theorem finish_success_iff (ok : String → Bool) (file : UploadedFile)
    (moduleId extractedText : String) (created fs attempts : List String) (rendered : Bool) :
    isSuccess (finish ok file moduleId extractedText created fs attempts rendered).response =
      true ↔ 50 ≤ (jsTrim extractedText).length := by
  rw [finish_response]
  split
  · rename_i h
    simp only [isSuccess]
    constructor
    · intro hfalse; exact absurd hfalse (by simp)
    · intro h50
      exfalso
      rcases h with h1 | h1
      · subst h1
        have h0 : (jsTrim "").length = 0 := rfl
        omega
      · omega
  · rename_i h
    push_neg at h
    obtain ⟨hne, hge⟩ := h
    simp only [isSuccess]
    constructor
    · intro _; omega
    · intro _; trivial

/-! Trimming produces no leading or trailing whitespace. -/

theorem head_dropWhile_false (p : Char → Bool) (l : List Char) (c : Char)
    (h : (l.dropWhile p).head? = some c) : p c = false := by
  have := List.head?_dropWhile_not p l
  rw [h] at this
  exact this

theorem dropWhile_decomp (p : Char → Bool) :
    ∀ l : List Char, ∃ t, l = t ++ l.dropWhile p := by
  intro l
  induction l with
  | nil => exact ⟨[], rfl⟩
  | cons a l ih =>
    by_cases hp : p a
    · rcases ih with ⟨t, ht⟩
      refine ⟨a :: t, ?_⟩
      rw [List.dropWhile_cons_of_pos hp, List.cons_append, ← ht]
    · exact ⟨[], by rw [List.dropWhile_cons_of_neg hp, List.nil_append]⟩

theorem trimChars_head (l : List Char) (c : Char)
    (h : (trimChars l).head? = some c) : isWS c = false := by
  unfold trimChars at h
  rcases dropWhile_decomp isWS (l.dropWhile isWS).reverse with ⟨t, ht⟩
  have hmrev : l.dropWhile isWS
      = ((l.dropWhile isWS).reverse.dropWhile isWS).reverse ++ t.reverse := by
    have h2 := congrArg List.reverse ht
    simpa [List.reverse_append] using h2
  have hmh : (l.dropWhile isWS).head? = some c := by
    rw [hmrev, List.head?_append, h]
    rfl
  exact head_dropWhile_false isWS l c hmh

theorem trimChars_getLast (l : List Char) (c : Char)
    (h : (trimChars l).getLast? = some c) : isWS c = false := by
  unfold trimChars at h
  rw [List.getLast?_reverse] at h
  exact head_dropWhile_false isWS (l.dropWhile isWS).reverse c h

/-! ## Branch dispatch lemmas for the handler -/

theorem handle_file_none (env : Env) (ok : String → Bool) (req : Request)
    (h : req.file = none) :
    handle env ok req =
      { response := .clientError "No PDF file uploaded",
        created := [], fsFinal := [], removeAttempts := [],
        candidate := none, rendererInvoked := false } := by
  unfold handle
  rw [h]

theorem handle_basic_ok (env : Env) (ok : String → Bool) (req : Request)
    (file : UploadedFile) (t : String)
    (hf : req.file = some file) (hb : basicExtract env = .ok t) :
    handle env ok req =
      finish ok file
        (match req.moduleId with
         | none => "unknown"
         | some m => if m = "" then "unknown" else m)
        t [file.path] [file.path] [] false := by
  unfold handle
  rw [hf, hb]

theorem handle_render_error (env : Env) (ok : String → Bool) (req : Request)
    (file : UploadedFile) (e e2 : String)
    (hf : req.file = some file) (hb : basicExtract env = .error e)
    (hr : env.render = .error e2) :
    handle env ok req =
      { response := .serverError "PDF processing failed" e2,
        created := [file.path],
        fsFinal := removePath ok [file.path] file.path,
        removeAttempts := [file.path],
        candidate := none, rendererInvoked := true } := by
  unfold handle
  rw [hf, hb, hr]

theorem handle_ocr (env : Env) (ok : String → Bool) (req : Request)
    (file : UploadedFile) (e : String) (ps : List String)
    (hf : req.file = some file) (hb : basicExtract env = .error e)
    (hr : env.render = .ok ps) :
    handle env ok req =
      finish ok file
        (match req.moduleId with
         | none => "unknown"
         | some m => if m = "" then "unknown" else m)
        (String.intercalate "\n\n" (ocrLoop (recognizeAt env) ps.length))
        ([file.path] ++ ps) (removeAll ok ([file.path] ++ ps) ps) ps true := by
  unfold handle
  rw [hf, hb, hr]

/-- Shape of every 200 success payload produced by the handler: its text is
the trimmed candidate of exactly one tier, its filename is the upload's
original name, its moduleId is the defaulted body field, its length is the
trimmed candidate's length and its method is the content-sniffed field. -/
theorem handle_success_shape (env : Env) (ok : String → Bool) (req : Request)
    (t f m : String) (len : Nat) (meth : String)
    (hs : (handle env ok req).response = Response.success t f m len meth) :
    ∃ file X, req.file = some file ∧
      t = jsTrim X ∧ f = file.originalname ∧
      m = (match req.moduleId with
           | none => "unknown"
           | some s => if s = "" then "unknown" else s) ∧
      len = (jsTrim X).length ∧ meth = methodField X ∧
      ((basicExtract env = .ok X ∧ (handle env ok req).rendererInvoked = false) ∨
       ((∃ e, basicExtract env = .error e) ∧ ∃ ps, env.render = .ok ps ∧
         X = String.intercalate "\n\n" (ocrLoop (recognizeAt env) ps.length) ∧
         (handle env ok req).rendererInvoked = true)) := by
  cases hf : req.file with
  | none =>
    rw [handle_file_none env ok req hf] at hs
    exact absurd hs (by simp)
  | some file =>
    cases hb : basicExtract env with
    | ok u =>
      rw [handle_basic_ok env ok req file u hf hb, finish_response] at hs
      split at hs
      · exact absurd hs (by simp)
      · injection hs with h1 h2 h3 h4 h5
        refine ⟨file, u, rfl, h1.symm, h2.symm, h3.symm, h4.symm, h5.symm, Or.inl ⟨rfl, ?_⟩⟩
        rw [handle_basic_ok env ok req file u hf hb, finish_rendered]
    | error e =>
      cases hr : env.render with
      | error e2 =>
        rw [handle_render_error env ok req file e e2 hf hb hr] at hs
        exact absurd hs (by simp)
      | ok ps =>
        rw [handle_ocr env ok req file e ps hf hb hr, finish_response] at hs
        split at hs
        · exact absurd hs (by simp)
        · injection hs with h1 h2 h3 h4 h5
          refine ⟨file, String.intercalate "\n\n" (ocrLoop (recognizeAt env) ps.length),
            rfl, h1.symm, h2.symm, h3.symm, h4.symm, h5.symm,
            Or.inr ⟨⟨e, rfl⟩, ps, rfl, rfl, ?_⟩⟩
          rw [handle_ocr env ok req file e ps hf hb hr, finish_rendered]

theorem moduleId_resolve (mid : Option String) (m : String)
    (h : m = (match mid with
              | none => "unknown"
              | some s => if s = "" then "unknown" else s)) :
    ((mid = none ∨ mid = some "") → m = "unknown") ∧
    (∀ s, mid = some s → s ≠ "" → m = s) := by
  constructor
  · rintro (h1 | h1) <;> subst h1 <;> simp_all
  · intro s hmid hne
    subst hmid
    have h2 : m = if s = "" then "unknown" else s := h
    rw [h2, if_neg hne]

theorem success_payload_shape (X t : String) (ht : t = jsTrim X) (len : Nat)
    (hlen : len = (jsTrim X).length) :
    len = t.length ∧
    (∀ c, t.data.head? = some c → isWS c = false) ∧
    (∀ c, t.data.getLast? = some c → isWS c = false) := by
  subst ht
  refine ⟨hlen, ?_, ?_⟩
  · intro c hc
    exact trimChars_head X.data c hc
  · intro c hc
    exact trimChars_getLast X.data c hc

/-! ## Claim theorems -/

/-- C1 (counterexample to the claim as stated): a request whose final
candidate text has trimmed length exactly 50 is accepted by the handler
and answered with the success payload, not classified as an extraction
failure — the code's final check is `trim().length < 50`, so the boundary
is non-strict acceptance at 50, not the claimed strict greater-than 50. -/
theorem C1_counterexample :
    (handle envC1 (fun _ => true) reqC1).candidate = some aggC1 ∧
    (jsTrim aggC1).length = 50 ∧
    (handle envC1 (fun _ => true) reqC1).response =
      Response.success aggC1 "scan.pdf" "unknown" 50 "ocr" := by
  refine ⟨rfl, rfl, rfl⟩

/-- C1 (amended): for every request that reaches the final acceptance
check with candidate text `t`, the handler returns the success payload if
and only if the trimmed length of `t` is at least 50 (non-strict): a
candidate of trimmed length exactly 50 is accepted, and failure is
reported exactly when the trimmed length is below 50, regardless of which
tier produced the candidate. -/
theorem C1_final_threshold (env : Env) (ok : String → Bool) (req : Request) (t : String)
    (hc : (handle env ok req).candidate = some t) :
    isSuccess (handle env ok req).response = true ↔ 50 ≤ (jsTrim t).length := by
  cases hf : req.file with
  | none =>
    rw [handle_file_none env ok req hf] at hc
    exact absurd hc (by simp)
  | some file =>
    cases hb : basicExtract env with
    | ok u =>
      rw [handle_basic_ok env ok req file u hf hb] at hc ⊢
      rw [finish_candidate] at hc
      injection hc with hc
      subst hc
      exact finish_success_iff _ _ _ _ _ _ _ _
    | error e =>
      cases hr : env.render with
      | error e2 =>
        rw [handle_render_error env ok req file e e2 hf hb hr] at hc
        exact absurd hc (by simp)
      | ok ps =>
        rw [handle_ocr env ok req file e ps hf hb hr] at hc ⊢
        rw [finish_candidate] at hc
        injection hc with hc
        subst hc
        exact finish_success_iff _ _ _ _ _ _ _ _

/-- C1 (witness): the amended theorem applied to the concrete request
whose candidate has trimmed length exactly 50. -/
theorem C1_witness :
    (handle envC1 (fun _ => true) reqC1).candidate = some aggC1 ∧
    (isSuccess (handle envC1 (fun _ => true) reqC1).response = true ↔
      50 ≤ (jsTrim aggC1).length) :=
  ⟨rfl, C1_final_threshold envC1 (fun _ => true) reqC1 aggC1 rfl⟩

/-- C2 (code bug): for a document whose embedded text layer is 101
non-whitespace characters (trimmed length strictly greater than 100, not
containing the substring `Basic extraction`), the handler does accept the
structural tier without invoking the page renderer — but the success
payload's `method` field reports `ocr`, the recognition tier, not the
structural tier, because line 148 infers the method by searching the
output text for the literal substring `Basic extraction`. -/
theorem C2_method_field_bug :
    (handle envC2 (fun _ => true) reqC2).rendererInvoked = false ∧
    (handle envC2 (fun _ => true) reqC2).response =
      Response.success textC2 "doc.pdf" "mod-1" 101 "ocr" := by
  refine ⟨rfl, rfl⟩

/-- C3: for every request, every temporary artifact recorded as created
(the upload, and the rendered page images when the renderer ran) has its
removal attempted before the response is delivered; when every removal
succeeds the final filesystem holds no artifact at all; and the response
is entirely independent of which removals succeed (deletion failures are
swallowed, never surfaced to the caller). -/
theorem C3_cleanup_invariant (env : Env) (ok ok2 : String → Bool) (req : Request) :
    (∀ p, p ∈ (handle env ok req).created → p ∈ (handle env ok req).removeAttempts) ∧
    (handle env (fun _ => true) req).fsFinal = [] ∧
    (handle env ok req).response = (handle env ok2 req).response := by
  cases hf : req.file with
  | none =>
    rw [handle_file_none env ok req hf, handle_file_none env ok2 req hf,
      handle_file_none env (fun _ => true) req hf]
    refine ⟨?_, rfl, rfl⟩
    intro p hp
    exact absurd hp (List.not_mem_nil p)
  | some file =>
    cases hb : basicExtract env with
    | ok u =>
      rw [handle_basic_ok env ok req file u hf hb, handle_basic_ok env ok2 req file u hf hb,
        handle_basic_ok env (fun _ => true) req file u hf hb]
      refine ⟨?_, ?_, ?_⟩
      · intro p hp
        rw [finish_created] at hp
        rw [finish_attempts]
        simpa using hp
      · rw [finish_fsFinal]
        simp [removePath]
      · rw [finish_response, finish_response]
    | error e =>
      cases hr : env.render with
      | error e2 =>
        rw [handle_render_error env ok req file e e2 hf hb hr,
          handle_render_error env ok2 req file e e2 hf hb hr,
          handle_render_error env (fun _ => true) req file e e2 hf hb hr]
        refine ⟨?_, ?_, rfl⟩
        · intro p hp
          simpa using hp
        · simp [removePath]
      | ok ps =>
        rw [handle_ocr env ok req file e ps hf hb hr,
          handle_ocr env ok2 req file e ps hf hb hr,
          handle_ocr env (fun _ => true) req file e ps hf hb hr]
        refine ⟨?_, ?_, ?_⟩
        · intro p hp
          rw [finish_created] at hp
          rw [finish_attempts]
          simp only [List.mem_append, List.mem_cons, List.mem_singleton] at hp ⊢
          tauto
        · rw [finish_fsFinal]
          apply removePath_true_cleanup
          intro x hx
          rcases List.mem_append.mp hx with h1 | h1
          · exact Or.inl (by simpa using h1)
          · exact Or.inr h1
        · rw [finish_response, finish_response]

/-- C3 (witness): the invariant applied to the concrete scanned-document
request: the upload's removal is attempted even when removals fail, the
filesystem ends empty when removals succeed, and the response does not
depend on removal outcomes. -/
theorem C3_witness :
    ("/tmp/uploads/u1" ∈ (handle envC1 (fun _ => false) reqC1).removeAttempts) ∧
    (handle envC1 (fun _ => true) reqC1).fsFinal = [] ∧
    (handle envC1 (fun _ => false) reqC1).response =
      (handle envC1 (fun _ => true) reqC1).response := by
  have h := C3_cleanup_invariant envC1 (fun _ => false) (fun _ => true) reqC1
  exact ⟨h.1 "/tmp/uploads/u1" (by decide), h.2.1, h.2.2⟩

/-- C4: when page `j`'s recognition throws and every other page in range
recognizes successfully, the per-page loop's output equals the aggregation
over all other pages in ascending order — each surviving page contributes
its entry exactly when it passes the per-page acceptance check, and the
failing page contributes nothing. -/
theorem C4_failure_isolation (n j : Nat) (rec : Nat → Except String String) (e : String)
    (hj : rec j = .error e)
    (hok : ∀ i, i < n → i ≠ j → ∃ t, rec i = .ok t) :
    ocrLoop rec n = ((List.range n).filter (fun i => i ≠ j)).filterMap (pageStep rec) := by
  rw [ocrLoop_eq_filterMap]
  apply filterMap_drop_none
  intro a ha hpa
  have haj : a = j := by simpa using hpa
  subst haj
  simp [pageStep, hj]

/-- C4 (witness): the failure-isolation theorem applied to a concrete
three-page document whose middle page throws: pages 1 and 3 appear in
order with their markers, page 2 contributes nothing. -/
theorem C4_witness :
    ocrLoop recW 3 =
      ["--- Page 1 ---\ncontent of page number 0",
       "--- Page 3 ---\ncontent of page number 2"] := by
  have h := C4_failure_isolation 3 1 recW "boom" rfl
    (fun i _ hne => ⟨"content of page number " ++ toString i, by simp [recW, hne]⟩)
  rw [h]
  rfl

/-- C5: whenever the recognition pipeline runs (structural extraction
failed and rendering succeeded), the candidate text reaching the final
check is exactly the blank-line join, in ascending page order, of one
entry per page whose recognition succeeded with trimmed length strictly
greater than 10, each entry being the 1-based page-boundary marker
followed by the trimmed page text; pages failing the check or throwing
contribute nothing. -/
theorem C5_aggregation (env : Env) (ok : String → Bool) (req : Request)
    (file : UploadedFile) (hf : req.file = some file) (e : String)
    (hb : basicExtract env = .error e) (ps : List String) (hr : env.render = .ok ps) :
    (handle env ok req).candidate =
      some (String.intercalate "\n\n" ((List.range ps.length).filterMap (fun i =>
        match recognizeAt env i with
        | .ok t =>
          if 10 < (jsTrim t).length then
            some ("--- Page " ++ toString (i + 1) ++ " ---\n" ++ jsTrim t)
          else none
        | .error _ => none))) := by
  rw [handle_ocr env ok req file e ps hf hb hr, finish_candidate, ocrLoop_eq_filterMap]
  rfl

/-- C5 (witness): the aggregation theorem applied to a concrete three-page
scan: only page 1 passes the per-page check, so the candidate is a single
marker-prefixed trimmed entry. -/
theorem C5_witness :
    (handle envC5 (fun _ => true) reqC5).candidate =
      some "--- Page 1 ---\nhello world page" := by
  have h := C5_aggregation envC5 (fun _ => true) reqC5
    ⟨"/tmp/uploads/u5", "a.pdf"⟩ rfl "parse crash" rfl
    ["/tmp/pdf-images/page.1.png", "/tmp/pdf-images/page.2.png",
     "/tmp/pdf-images/page.3.png"] rfl
  rw [h]
  rfl

/-- C6: if the recognition pipeline runs and every page either throws or
fails the per-page acceptance check, the aggregate candidate is the empty
string, the final check rejects it, and the request is answered with the
extraction-failure response rather than a success. -/
theorem C6_all_pages_rejected (env : Env) (ok : String → Bool) (req : Request)
    (file : UploadedFile) (hf : req.file = some file) (e : String)
    (hb : basicExtract env = .error e) (ps : List String) (hr : env.render = .ok ps)
    (hall : ∀ i, i < ps.length →
      (∃ e2, recognizeAt env i = .error e2) ∨
      (∀ t, recognizeAt env i = .ok t → (jsTrim t).length ≤ 10)) :
    (handle env ok req).response =
      Response.serverError "Text extraction failed"
        "Unable to extract meaningful text from PDF" ∧
    (handle env ok req).candidate = some "" := by
  have hloop : ocrLoop (recognizeAt env) ps.length = [] := by
    rw [ocrLoop_eq_filterMap, List.filterMap_eq_nil_iff]
    intro i hi
    have hi2 : i < ps.length := List.mem_range.mp hi
    rcases hall i hi2 with ⟨e2, he⟩ | hok
    · simp [pageStep, he]
    · cases hc : recognizeAt env i with
      | ok t =>
        have hle := hok t hc
        simp [pageStep, hc]
        omega
      | error e3 => simp [pageStep, hc]
  rw [handle_ocr env ok req file e ps hf hb hr, hloop]
  have hempty : String.intercalate "\n\n" ([] : List String) = "" := rfl
  rw [hempty]
  constructor
  · rw [finish_response]
    simp
  · rw [finish_candidate]

/-- C6 (witness): the theorem applied to a concrete two-page scan whose
first page throws and whose second page recognizes only noise below the
threshold: the request fails with the extraction-failure response. -/
theorem C6_witness :
    (handle envC6 (fun _ => true) reqC6).response =
      Response.serverError "Text extraction failed"
        "Unable to extract meaningful text from PDF" := by
  have h := C6_all_pages_rejected envC6 (fun _ => true) reqC6
    ⟨"/tmp/uploads/u6", "noise.pdf"⟩ rfl
    "Basic extraction insufficient, trying OCR" rfl
    ["/tmp/pdf-images/x.png", "/tmp/pdf-images/y.png"] rfl ?hall
  case hall =>
    intro i hi
    have hi2 : i < 2 := by simpa using hi
    match i, hi2 with
    | 0, _ => exact Or.inl ⟨"bad page", rfl⟩
    | 1, _ =>
      refine Or.inr fun t ht => ?_
      have h0 : recognizeAt envC6 1 = .ok "  .,  " := rfl
      rw [h0] at ht
      injection ht with ht
      subst ht
      decide
  exact h.1

/-- C7: every success response's text comes from exactly one tier: either
structural extraction succeeded, the text is its trimmed output and the
renderer was never invoked, or structural extraction failed, the renderer
ran, and the text is the trimmed aggregate of the recognition loop alone;
the two are never merged. -/
theorem C7_single_tier (env : Env) (ok : String → Bool) (req : Request)
    (t f m : String) (len : Nat) (meth : String)
    (hs : (handle env ok req).response = Response.success t f m len meth) :
    (∃ u, basicExtract env = .ok u ∧ t = jsTrim u ∧
      (handle env ok req).rendererInvoked = false) ∨
    ((∃ e, basicExtract env = .error e) ∧ ∃ ps, env.render = .ok ps ∧
      t = jsTrim (String.intercalate "\n\n" (ocrLoop (recognizeAt env) ps.length)) ∧
      (handle env ok req).rendererInvoked = true) := by
  obtain ⟨file, X, hf, ht, hfn, hm, hlen, hmeth, htier⟩ :=
    handle_success_shape env ok req t f m len meth hs
  rcases htier with ⟨hb, hrend⟩ | ⟨⟨e, hb⟩, ps, hr, hX, hrend⟩
  · exact Or.inl ⟨X, hb, ht, hrend⟩
  · exact Or.inr ⟨⟨e, hb⟩, ps, hr, ht.trans (by rw [hX]), hrend⟩

/-- C7 (witness): the single-tier theorem applied to a concrete document
with a rich embedded text layer: the structural disjunct holds. -/
theorem C7_witness :
    (∃ u, basicExtract envC2 = .ok u ∧ textC2 = jsTrim u ∧
      (handle envC2 (fun _ => true) reqC2).rendererInvoked = false) ∨
    ((∃ e, basicExtract envC2 = .error e) ∧ ∃ ps, envC2.render = .ok ps ∧
      textC2 = jsTrim (String.intercalate "\n\n"
        (ocrLoop (recognizeAt envC2) ps.length)) ∧
      (handle envC2 (fun _ => true) reqC2).rendererInvoked = true) :=
  C7_single_tier envC2 (fun _ => true) reqC2 textC2 "doc.pdf" "mod-1" 101 "ocr" rfl

/-- C8: every invocation of the page recognizer creates a fresh engine
(every non-empty trace begins with worker creation), binds it to the fixed
profile — language `eng` for both load and initialization, page
segmentation mode `1`, and the fixed ASCII character whitelist — and
terminates the worker as the last action on the success path and on every
failure path before the error is re-raised. -/
theorem C8_engine_lifecycle (env : TessEnv) :
    (∀ l, EngineEvent.loadLang l ∈ (extractTextWithTesseract env).2 → l = "eng") ∧
    (∀ l, EngineEvent.initLang l ∈ (extractTextWithTesseract env).2 → l = "eng") ∧
    (∀ w p, EngineEvent.setParams w p ∈ (extractTextWithTesseract env).2 →
      w = charWhitelist ∧ p = "1") ∧
    ((extractTextWithTesseract env).2 = [] ∨
      (extractTextWithTesseract env).2.head? = some EngineEvent.create) ∧
    (EngineEvent.create ∈ (extractTextWithTesseract env).2 →
      (extractTextWithTesseract env).2.getLast? = some EngineEvent.terminate) := by
  obtain ⟨c, lo, ini, se, re⟩ := env
  cases c <;> cases lo <;> cases ini <;> cases se <;> cases re <;>
    refine ⟨?_, ?_, ?_, ?_, ?_⟩ <;>
      simp [extractTextWithTesseract]

/-- C8 (witness): the lifecycle theorem applied to a fully successful
recognition: the worker is terminated last. -/
theorem C8_witness :
    (extractTextWithTesseract envT8).2.getLast? = some EngineEvent.terminate := by
  have h := C8_engine_lifecycle envT8
  exact h.2.2.2.2 (by decide)

/-- C9: in every success payload, the moduleId field is the literal
`unknown` when the caller omitted the field or supplied the empty string,
and the caller-supplied value verbatim otherwise. -/
theorem C9_module_default (env : Env) (ok : String → Bool) (req : Request)
    (t f m : String) (len : Nat) (meth : String)
    (hs : (handle env ok req).response = Response.success t f m len meth) :
    ((req.moduleId = none ∨ req.moduleId = some "") → m = "unknown") ∧
    (∀ s, req.moduleId = some s → s ≠ "" → m = s) := by
  obtain ⟨file, X, hf, ht, hfn, hm, hlen, hmeth, htier⟩ :=
    handle_success_shape env ok req t f m len meth hs
  exact moduleId_resolve req.moduleId m hm

/-- C9 (witness): the defaulting theorem applied to a concrete success
with moduleId `mod-1`, a non-empty caller-supplied value. -/
theorem C9_witness :
    ((reqC2.moduleId = none ∨ reqC2.moduleId = some "") →
      ("mod-1" : String) = "unknown") ∧
    (∀ s, reqC2.moduleId = some s → s ≠ "" → ("mod-1" : String) = s) :=
  C9_module_default envC2 (fun _ => true) reqC2 textC2 "doc.pdf" "mod-1" 101 "ocr" rfl

/-- C10: in every success payload, the text field carries no leading or
trailing whitespace and the textLength field equals the exact character
length of that text field. -/
theorem C10_success_payload (env : Env) (ok : String → Bool) (req : Request)
    (t f m : String) (len : Nat) (meth : String)
    (hs : (handle env ok req).response = Response.success t f m len meth) :
    len = t.length ∧
    (∀ c, t.data.head? = some c → isWS c = false) ∧
    (∀ c, t.data.getLast? = some c → isWS c = false) := by
  obtain ⟨file, X, hf, ht, hfn, hm, hlen, hmeth, htier⟩ :=
    handle_success_shape env ok req t f m len meth hs
  exact success_payload_shape X t ht len hlen

/-- C10 (witness): the payload-shape theorem applied to a concrete
success: the reported length is the text's length and the text is
whitespace-free at both ends. -/
theorem C10_witness :
    (101 : Nat) = textC2.length ∧
    (∀ c, textC2.data.head? = some c → isWS c = false) ∧
    (∀ c, textC2.data.getLast? = some c → isWS c = false) :=
  C10_success_payload envC2 (fun _ => true) reqC2 textC2 "doc.pdf" "mod-1" 101 "ocr" rfl

end RailwayOCR
